import Mathlib

/-!
Shallow embedding of `xontrib/cmd_done.py` (xontrib-cmd-done).

Conventions of the embedding:
* Host state that the Python module reads — environment variables,
  `platform.system()`, the xonsh history object, the configured options — is
  collected in a `World` structure and passed explicitly.
* External process invocations (`xdotool`, `lsappinfo`) and the host prompt
  formatter are oracles stored in the world.  An invocation that may raise is
  an `Except PyErr String`: `.error` means the Python call raised an
  exception, `.ok s` means it returned output `s` (already decoded).
* Fallible Python code is modelled with explicit `Except PyErr` propagation;
  an uncaught Python exception is a `.error` result.
* Timestamps and the threshold are modelled as integers, so Python's `round`
  is the identity; Python's integer `divmod` is floor division, matching
  `Int.fdiv`/`Int.fmod`.
* Python string primitives (`str.lower`, `str.strip`, `str.split`, `in`) are
  modelled character-listwise so that every definition evaluates by kernel
  reduction.
-/

/-- Python exceptions the embedded code can raise. -/
inductive PyErr where
  /-- An `IndexError`, e.g. from `xs[-1]` on an empty list or `xs[1]` on a
  one-element split. -/
  | indexError
  /-- Any exception raised by a `subprocess.check_output` invocation. -/
  | procError (msg : String)
deriving DecidableEq

/-- Python truthiness of an optional string: `None` and `""` are falsy. -/
def pyTruthy : Option String → Bool
  | none => false
  | some s => s != ""

/-- Lookup in a Python dict represented as an insertion-ordered association
list; on duplicate keys the last insertion wins, as in a dict comprehension. -/
def pyDictGet (m : List (String × String)) (k : String) : Option String :=
  m.reverse.lookup k

/-- Python's `str.lower` (ASCII case mapping suffices here). -/
def pyStrLower (s : String) : String :=
  ⟨s.data.map Char.toLower⟩

/-- Python's `str.strip` with no argument: drop whitespace on both ends. -/
def pyStrip (s : String) : String :=
  ⟨((s.data.dropWhile Char.isWhitespace).reverse.dropWhile Char.isWhitespace).reverse⟩

/-- Split a character list at every occurrence of `sep`, keeping empty
pieces, as Python's `str.split(sep)` does. -/
def pySplitChars (sep : Char) : List Char → List (List Char)
  | [] => [[]]
  | c :: cs =>
    let rest := pySplitChars sep cs
    if c = sep then [] :: rest
    else
      match rest with
      | r :: rs => (c :: r) :: rs
      | [] => [[c]]

/-- Python's `str.split(sep)` for a one-character separator. -/
def pySplit (s : String) (sep : Char) : List String :=
  (pySplitChars sep s.data).map (fun cs => ⟨cs⟩)

/-- Auxiliary for `pyContains`: does `needle` occur as a contiguous
subsequence of the list? -/
def containsSeq (needle : List Char) : List Char → Bool
  | [] => needle.isEmpty
  | c :: cs => needle.isPrefixOf (c :: cs) || containsSeq needle cs

/-- Python's substring test `needle in haystack`. -/
def pyContains (haystack needle : String) : Bool :=
  containsSeq needle.data haystack.data

/-- Python's `xs[-1]`: the last element, raising `IndexError` when empty. -/
def pyLast {α : Type} (xs : List α) : Except PyErr α :=
  match xs.getLast? with
  | some x => .ok x
  | none => .error PyErr.indexError

/-- Python's `divmod` on integers: floor division and the matching remainder. -/
def pyDivMod (a b : Int) : Int × Int :=
  (a.fdiv b, a.fmod b)

/-- Environment variables read by the module (`xsh.env.get`): a missing
variable is `none`. -/
structure Env where
  /-- `$WINDOWID` (Linux). -/
  WINDOWID : Option String
  /-- `$__CFBundleIdentifier` (Darwin). -/
  bundleIdentifier : Option String
  /-- `$TERM_PROGRAM` (Darwin). -/
  TERM_PROGRAM : Option String
  /-- `$XONTRIB_CD_TERM_PROGRAM_MAP`, an insertion-ordered mapping when set. -/
  termProgramMap : Option (List (String × String))

/-- The module-level configuration values read once at load time. -/
structure Config where
  /-- `$XONTRIB_CD_LONG_DURATION` (seconds, default 5). -/
  LONG_DURATION : Int
  /-- `$XONTRIB_CD_TRIGGER_NOTIFICATION` (default true). -/
  TRIGGER_NOTIFICATION : Bool
  /-- `$XONTRIB_CD_NOTIFICATION_APP_NAME` (default `$TITLE` else "xonsh"). -/
  NOTIFICATION_APP_NAME : String

/-- The xonsh history object: per-command timestamp pairs, return codes and
input texts. -/
structure History where
  tss : List (Int × Int)
  rtns : List Int
  inps : List String
deriving DecidableEq

/-- The value of `platform.system()`. -/
inductive OSKind where
  | linux
  | darwin
  | other
deriving DecidableEq

/-- Oracles for the external tools and the host shell. -/
structure ExtTools where
  /-- Outcome of `sp.check_output(["xdotool", "getactivewindow"])`. -/
  xdotoolGetActiveWindow : Except PyErr String
  /-- Outcome of `sp.check_output(["lsappinfo", "find", "bundleID=" ++ b])`,
  already stripped. -/
  lsappinfoFind : String → Except PyErr String
  /-- Outcome of `sp.check_output(["lsappinfo", "info", "-app", name])`. -/
  lsappinfoInfo : String → Except PyErr String
  /-- The host's `xsh.shell.prompt_formatter`. -/
  promptFormatter : String → String

/-- One invocation's whole input: OS, environment, configuration, external
oracles and history. -/
structure World where
  os : OSKind
  env : Env
  cfg : Config
  ext : ExtTools
  hist : History

/-- Embedding of `_term_program_mapping` (cmd_done.py lines 13-18): the user
map if `$XONTRIB_CD_TERM_PROGRAM_MAP` is set, otherwise the built-in
defaults; keys lowercased. -/
def _term_program_mapping (env : Env) : List (String × String) :=
  let defaults := [("iterm.app", "iTerm2"), ("apple_terminal", "Terminal"),
                   ("vscode", "Code"), ("pycharm", "PyCharm"), ("kate", "Kate")]
  let maps := env.termProgramMap.getD defaults
  maps.map (fun kv => (pyStrLower kv.1, kv.2))

/-- Embedding of `_darwin_get_app_name` (lines 21-24); the `lru_cache`
decorator only memoizes a pure function and needs no modelling. -/
def _darwin_get_app_name (env : Env) (term_program : String) : String :=
  let maps := _term_program_mapping env
  (pyDictGet maps (pyStrLower term_program)).getD term_program

/-- Embedding of `secs_to_readable` (lines 33-53), written as the same
sequence of conditional appends to an accumulator.  On an integer input
Python's `round` is the identity, so it is omitted. -/
def secs_to_readable (secs : Int) : String :=
  let readable := ""
  let hr := pyDivMod secs 3600
  let hours := hr.1
  let remainder := hr.2
  let ms := pyDivMod remainder 60
  let minutes := ms.1
  let seconds := ms.2
  let readable := if hours ≠ 0 then readable ++ (toString hours ++ "h") else readable
  let readable := if hours ≠ 0 ∨ minutes ≠ 0 then readable ++ (toString minutes ++ "m") else readable
  let readable := if hours ≠ 0 ∨ minutes ≠ 0 ∨ seconds ≠ 0 then readable ++ (toString seconds ++ "s") else readable
  readable

/-- Embedding of `_xdotool_window_id` (lines 72-77): the `subprocess` call is
wrapped in `try/except`; an exception is logged as a warning and the function
falls through returning `None`; otherwise `.decode().strip()` of the output. -/
def _xdotool_window_id (ext : ExtTools) : Option String :=
  match ext.xdotoolGetActiveWindow with
  | .ok out => some (pyStrip out)
  | .error _ => none

/-- Embedding of `_linux_is_app_window_focused` (lines 79-88): falsy
`$WINDOWID` warns and returns `False`; otherwise the result is
`curr_winid == winid`, where a `None` from `_xdotool_window_id` compares
unequal to the (truthy) string `winid`. -/
def _linux_is_app_window_focused (w : World) : Bool :=
  if !pyTruthy w.env.WINDOWID then
    false
  else
    match _xdotool_window_id w.ext with
    | some curr => curr == w.env.WINDOWID.getD ""
    | none => false

/-- Embedding of `_darwin_is_app_window_focused` (lines 91-119).  Neither
`lsappinfo` invocation is guarded by a `try/except`, so their exceptions
propagate, as does the `IndexError` of `str(out).split("\"")[1]` when the
output contains no double quote (splitting the decoded output on `"` yields
the same element 1 as splitting Python's `str(bytes)` repr).  The
`if not out` branch before the return only logs a warning. -/
def _darwin_is_app_window_focused (w : World) : Except PyErr Bool :=
  let step1 : Except PyErr (Option String) :=
    if pyTruthy w.env.bundleIdentifier then
      match w.ext.lsappinfoFind (w.env.bundleIdentifier.getD "") with
      | .error e => .error e
      | .ok out =>
        match (pySplit out '"').get? 1 with
        | some name => .ok (some name)
        | none => .error PyErr.indexError
    else .ok none
  match step1 with
  | .error e => .error e
  | .ok appname0 =>
    let appname :=
      if pyTruthy appname0 then appname0
      else if pyTruthy w.env.TERM_PROGRAM then
        some (_darwin_get_app_name w.env (w.env.TERM_PROGRAM.getD ""))
      else appname0
    if pyTruthy appname then
      match w.ext.lsappinfoInfo (appname.getD "") with
      | .error e => .error e
      | .ok out => .ok (pyContains out "(in front)")
    else .ok false

/-- Embedding of `is_app_window_focused` (lines 122-129): Darwin branch, then
Linux branch, else `False`. -/
def is_app_window_focused (w : World) : Except PyErr Bool :=
  if w.os = OSKind.darwin then _darwin_is_app_window_focused w
  else if w.os = OSKind.linux then .ok (_linux_is_app_window_focused w)
  else .ok false

/-- A desktop notification as handed to `notifypy.Notify`. -/
structure Notification where
  application_name : String
  title : String
  message : String
deriving DecidableEq

/-- Embedding of `notify_user` (lines 132-145): indexes `hist.rtns[-1]` and
`hist.inps[-1]` first, then re-checks focus (returning with no notification
when focused), then builds and sends exactly one notification. -/
def notify_user (w : World) (hist : History) (readable : String) :
    Except PyErr (Option Notification) :=
  match pyLast hist.rtns with
  | .error e => .error e
  | .ok rtn =>
    match pyLast hist.inps with
    | .error e => .error e
    | .ok cmd =>
      match is_app_window_focused w with
      | .error e => .error e
      | .ok focused =>
        if focused then .ok none
        else .ok (some
          { application_name := w.ext.promptFormatter w.cfg.NOTIFICATION_APP_NAME
            title := cmd
            message := (if rtn ≠ 0 then "Failed" else "Done") ++ " in " ++ readable })

/-- Observable outcome of one `long_cmd_duration` call: the prompt value
returned, whether `notify_user` was invoked, and the notification it sent. -/
structure LCDOutcome where
  value : Option String
  dispatched : Bool
  sent : Option Notification
deriving DecidableEq

/-- Embedding of `long_cmd_duration` (lines 148-161).  The `match` on
`getLast?` covers both the `if not history.tss: return` guard (`none` case,
returning `None`) and the unpacking `start_t, end_t = history.tss[-1]`. -/
def long_cmd_duration (w : World) : Except PyErr LCDOutcome :=
  match w.hist.tss.getLast? with
  | none => .ok ⟨none, false, none⟩
  | some (start_t, end_t) =>
    let interval := end_t - start_t
    if interval > w.cfg.LONG_DURATION then
      let readable := secs_to_readable interval
      if w.cfg.TRIGGER_NOTIFICATION then
        match notify_user w w.hist readable with
        | .ok n => .ok ⟨some readable, true, n⟩
        | .error e => .error e
      else .ok ⟨some readable, false, none⟩
    else .ok ⟨none, false, none⟩

/-- Rendering rule written from the spec's words (§4.1 and the C6 omission
rule), for comparison with `secs_to_readable`: hours appear only when
non-zero, minutes appear iff hours or minutes are non-zero, seconds appear
iff hours, minutes, or seconds are non-zero. -/
def specUnitsRender (hours minutes seconds : Int) : String :=
  (if hours ≠ 0 then toString hours ++ "h" else "") ++
  (if hours ≠ 0 ∨ minutes ≠ 0 then toString minutes ++ "m" else "") ++
  (if hours ≠ 0 ∨ minutes ≠ 0 ∨ seconds ≠ 0 then toString seconds ++ "s" else "")

/-! ### Concrete worlds used as witnesses and counterexamples -/

/-- An environment with every variable unset. -/
def emptyEnv : Env :=
  { WINDOWID := none, bundleIdentifier := none, TERM_PROGRAM := none, termProgramMap := none }

/-- Benign oracles: every external call succeeds with fixed output. -/
def okTools : ExtTools :=
  { xdotoolGetActiveWindow := .ok "77"
    lsappinfoFind := fun _ => .ok "\"iTerm2\" ASN:0x0-0x1:"
    lsappinfoInfo := fun _ => .ok "\"iTerm2\" ASN:0x0-0x1: (in front)"
    promptFormatter := fun s => s }

/-- The default configuration: threshold 5, notifications on, app name xonsh. -/
def defaultCfg : Config :=
  { LONG_DURATION := 5, TRIGGER_NOTIFICATION := true, NOTIFICATION_APP_NAME := "xonsh" }

/-- A Darwin world whose `lsappinfo find` invocation raises. -/
def c1World : World :=
  { os := OSKind.darwin
    env := { emptyEnv with bundleIdentifier := some "com.googlecode.iterm2" }
    cfg := defaultCfg
    ext := { okTools with lsappinfoFind := fun _ => .error (PyErr.procError "lsappinfo missing") }
    hist := { tss := [], rtns := [], inps := [] } }

/-- A Linux world whose `xdotool` invocation raises, with `$WINDOWID` set. -/
def c1LinuxWorld : World :=
  { os := OSKind.linux
    env := { emptyEnv with WINDOWID := some "99" }
    cfg := defaultCfg
    ext := { okTools with xdotoolGetActiveWindow := .error (PyErr.procError "xdotool missing") }
    hist := { tss := [], rtns := [], inps := [] } }

/-- An unsupported-OS world whose last command ran 12 seconds. -/
def c3SlowWorld : World :=
  { os := OSKind.other, env := emptyEnv, cfg := defaultCfg, ext := okTools
    hist := { tss := [(0, 12)], rtns := [0], inps := ["sleep 12"] } }

/-- An unsupported-OS world whose last command ran 3 seconds. -/
def c3FastWorld : World :=
  { c3SlowWorld with hist := { tss := [(0, 3)], rtns := [0], inps := ["ls"] } }

/-- An environment carrying a user-supplied `$XONTRIB_CD_TERM_PROGRAM_MAP`. -/
def c4UserEnv : Env :=
  { emptyEnv with termProgramMap := some [("foo", "Bar")] }

/-- A history with one successful 12-second command. -/
def c5Hist : History :=
  { tss := [(0, 12)], rtns := [0], inps := ["sleep 12"] }

/-- A history with one failed 12-second command. -/
def c5FailHist : History :=
  { tss := [(0, 12)], rtns := [1], inps := ["sleep 12"] }

/-- A Linux world that is focused: `$WINDOWID` matches the stripped
`xdotool` output. -/
def c5FocusedWorld : World :=
  { os := OSKind.linux
    env := { emptyEnv with WINDOWID := some "42" }
    cfg := defaultCfg
    ext := { okTools with xdotoolGetActiveWindow := .ok " 42\n" }
    hist := c5Hist }

/-- An unsupported-OS world, hence never focused. -/
def c5UnfocusedWorld : World :=
  { os := OSKind.other, env := emptyEnv, cfg := defaultCfg, ext := okTools, hist := c5Hist }

/-- The unfocused world with a failed last command. -/
def c5FailWorld : World :=
  { c5UnfocusedWorld with hist := c5FailHist }

/-- A world with an empty history. -/
def c7World : World :=
  { os := OSKind.other, env := emptyEnv, cfg := defaultCfg, ext := okTools
    hist := { tss := [], rtns := [], inps := [] } }

/-- An unsupported-OS world with a 12-second command, for the end-to-end
dispatch scenario. -/
def c8World : World :=
  { os := OSKind.other, env := emptyEnv, cfg := defaultCfg, ext := okTools
    hist := { tss := [(0, 12)], rtns := [0], inps := ["sleep 12"] } }

/-- A world whose timestamp list is non-empty but whose return-code list is
empty. -/
def c10World : World :=
  { os := OSKind.other, env := emptyEnv, cfg := defaultCfg, ext := okTools
    hist := { tss := [(0, 12)], rtns := [], inps := ["sleep 12"] } }

/-! ### Helper lemmas -/

/-- `pyDivMod` on natural-number inputs computes the natural division pair. -/
lemma pyDivMod_natCast (m n : Nat) : pyDivMod ↑m ↑n = (↑(m / n), ↑(m % n)) := by
  simp [pyDivMod, ← Int.ofNat_fdiv, ← Int.ofNat_fmod]

/-- The accumulator in `secs_to_readable` builds exactly the spec-side
conditional concatenation of the three unit fields. -/
lemma secs_to_readable_render (secs : Int) :
    secs_to_readable secs =
      specUnitsRender (pyDivMod secs 3600).1 (pyDivMod (pyDivMod secs 3600).2 60).1
        (pyDivMod (pyDivMod secs 3600).2 60).2 := by
  unfold secs_to_readable specUnitsRender
  by_cases h1 : (pyDivMod secs 3600).1 ≠ 0 <;>
    by_cases h2 : (pyDivMod (pyDivMod secs 3600).2 60).1 ≠ 0 <;>
      by_cases h3 : (pyDivMod (pyDivMod secs 3600).2 60).2 ≠ 0 <;>
        simp [h1, h2, h3, String.append_assoc]

/-- On a natural-number input the three fields of `secs_to_readable` are the
usual hour/minute/second decomposition. -/
lemma secs_to_readable_nat (s : Nat) :
    secs_to_readable ↑s = specUnitsRender ↑(s / 3600) ↑(s % 3600 / 60) ↑(s % 60) := by
  rw [secs_to_readable_render]
  have h1 : pyDivMod (↑s) 3600 = (↑(s / 3600), ↑(s % 3600)) := by
    exact_mod_cast pyDivMod_natCast s 3600
  have h2 : pyDivMod (↑(s % 3600)) 60 = (↑(s % 3600 / 60), ↑(s % 3600 % 60)) := by
    exact_mod_cast pyDivMod_natCast (s % 3600) 60
  rw [h1]
  simp only [h2]
  rw [Nat.mod_mod_of_dvd s (by norm_num : (60:ℕ) ∣ 3600)]

/-- On an unsupported OS the probe reports not-focused, whatever the oracles. -/
lemma is_app_window_focused_other (w : World) (hos : w.os = OSKind.other) :
    is_app_window_focused w = .ok false := by
  unfold is_app_window_focused
  rw [hos]
  simp

/-- On Linux the probe returns the Linux helper's boolean and cannot raise. -/
lemma is_app_window_focused_linux (w : World) (hos : w.os = OSKind.linux) :
    is_app_window_focused w = .ok (_linux_is_app_window_focused w) := by
  unfold is_app_window_focused
  rw [hos]
  simp

/-- When the `xdotool` invocation raises, the Linux helper reports
not-focused (the exception is caught inside `_xdotool_window_id`). -/
lemma linux_false_of_xdotool_error (w : World) (e : PyErr)
    (he : w.ext.xdotoolGetActiveWindow = .error e) :
    _linux_is_app_window_focused w = false := by
  unfold _linux_is_app_window_focused _xdotool_window_id
  rw [he]
  cases hW : pyTruthy w.env.WINDOWID <;> simp

/-- On Darwin with a truthy bundle identifier, an exception raised by the
`lsappinfo find` invocation propagates out of the probe. -/
lemma darwin_find_error (w : World) (hos : w.os = OSKind.darwin) (b : String) (e : PyErr)
    (hb : w.env.bundleIdentifier = some b) (hbne : b ≠ "")
    (hf : w.ext.lsappinfoFind b = .error e) :
    is_app_window_focused w = .error e := by
  unfold is_app_window_focused
  rw [hos]
  simp only [reduceCtorEq, if_true, if_pos rfl]
  unfold _darwin_is_app_window_focused
  simp [pyTruthy, hb, hbne, hf]

/-- Unfolding of `notify_user` when both history lists are non-empty and the
focus probe returns without raising. -/
lemma notify_user_spec (w : World) (hist : History) (readable : String)
    (rtn : Int) (cmd : String) (f : Bool)
    (hr : hist.rtns.getLast? = some rtn) (hi : hist.inps.getLast? = some cmd)
    (hf : is_app_window_focused w = .ok f) :
    notify_user w hist readable =
      .ok (if f then none
           else some
             { application_name := w.ext.promptFormatter w.cfg.NOTIFICATION_APP_NAME
               title := cmd
               message := (if rtn ≠ 0 then "Failed" else "Done") ++ " in " ++ readable }) := by
  unfold notify_user pyLast
  rw [hr, hi, hf]
  cases f <;> simp

/-- Unfolding of `long_cmd_duration` when the last duration is within the
threshold. -/
lemma long_cmd_duration_le (w : World) (start_t end_t : Int)
    (hts : w.hist.tss.getLast? = some (start_t, end_t))
    (hle : end_t - start_t ≤ w.cfg.LONG_DURATION) :
    long_cmd_duration w = .ok ⟨none, false, none⟩ := by
  unfold long_cmd_duration
  rw [hts]
  simp only
  rw [if_neg (by omega)]

/-- Unfolding of `long_cmd_duration` when the last duration exceeds the
threshold, the history lists are non-empty and the probe does not raise. -/
lemma long_cmd_duration_gt (w : World) (start_t end_t : Int)
    (hts : w.hist.tss.getLast? = some (start_t, end_t))
    (hgt : end_t - start_t > w.cfg.LONG_DURATION)
    (rtn : Int) (cmd : String) (f : Bool)
    (hr : w.hist.rtns.getLast? = some rtn) (hi : w.hist.inps.getLast? = some cmd)
    (hf : is_app_window_focused w = .ok f) :
    long_cmd_duration w = .ok
      { value := some (secs_to_readable (end_t - start_t))
        dispatched := w.cfg.TRIGGER_NOTIFICATION
        sent :=
          if w.cfg.TRIGGER_NOTIFICATION then
            (if f then none
             else some
               { application_name := w.ext.promptFormatter w.cfg.NOTIFICATION_APP_NAME
                 title := cmd
                 message := (if rtn ≠ 0 then "Failed" else "Done") ++ " in " ++
                   secs_to_readable (end_t - start_t) })
          else none } := by
  have hnu := notify_user_spec w w.hist (secs_to_readable (end_t - start_t)) rtn cmd f hr hi hf
  unfold long_cmd_duration
  rw [hts]
  simp only
  rw [if_pos hgt]
  cases htr : w.cfg.TRIGGER_NOTIFICATION <;> simp [htr, hnu]

example : secs_to_readable 100 = "1m40s" := by decide
example : secs_to_readable 3661 = "1h1m1s" := by decide
example : pyContains "x (in front) y" "(in front)" = true := by decide
example : pyContains "x(in fronty" "(in front)" = false := by decide
example : _darwin_get_app_name emptyEnv "iTerm.APP" = "iTerm2" := by decide
example : pySplit "b:\"iTerm2\" ASN" '"' = ["b:", "iTerm2", " ASN"] := by decide
example : pyStrip " 42\n" = "42" := by decide

/-! ### Claims -/

/-- C1, counterexample: the claim says every external-tool exception in the
focus probe is caught and collapsed to a not-focused result.  In the Darwin
branch the `lsappinfo` invocations are not guarded: in a concrete Darwin
world whose `lsappinfo find` call raises, the probe propagates the
exception to its caller instead of returning false. -/
theorem C1_counterexample :
    is_app_window_focused c1World = .error (PyErr.procError "lsappinfo missing") := by
  rfl

/-- C1 (amended): on the Linux branch any exception raised by the `xdotool`
invocation is caught (and logged) inside `_xdotool_window_id` and collapses
to a not-focused result, and the Linux probe never propagates an exception;
on the Darwin branch the `lsappinfo` invocations are unguarded, so their
exceptions propagate to the caller. -/
theorem C1_probe_exception_amended (w : World) :
    (w.os = OSKind.linux →
      is_app_window_focused w = .ok (_linux_is_app_window_focused w) ∧
      ∀ e, w.ext.xdotoolGetActiveWindow = .error e → is_app_window_focused w = .ok false) ∧
    (w.os = OSKind.darwin →
      ∀ b e, w.env.bundleIdentifier = some b → b ≠ "" →
        w.ext.lsappinfoFind b = .error e → is_app_window_focused w = .error e) := by
  constructor
  · intro hos
    refine ⟨is_app_window_focused_linux w hos, ?_⟩
    intro e he
    rw [is_app_window_focused_linux w hos, linux_false_of_xdotool_error w e he]
  · intro hos b e hb hbne hf
    exact darwin_find_error w hos b e hb hbne hf

/-- C1, witness: in a Linux world whose `xdotool` call raises the probe
returns `.ok false`; in the Darwin world of the counterexample the
`lsappinfo` exception propagates. -/
theorem C1_probe_exception_witness :
    is_app_window_focused c1LinuxWorld = .ok false ∧
    is_app_window_focused c1World = .error (PyErr.procError "lsappinfo missing") := by
  refine ⟨?_, ?_⟩
  · exact ((C1_probe_exception_amended c1LinuxWorld).1 rfl).2
      (PyErr.procError "xdotool missing") rfl
  · exact (C1_probe_exception_amended c1World).2 rfl "com.googlecode.iterm2"
      (PyErr.procError "lsappinfo missing") rfl (by decide) rfl

/-- C2, counterexample: the spec's vector `format(3600) == "1h0m"` fails on
the code: because `hours` is truthy, the seconds branch also fires and the
code produces `"1h0m0s"`. -/
theorem C2_counterexample :
    secs_to_readable 3600 = "1h0m0s" ∧ secs_to_readable 3600 ≠ "1h0m" := by
  constructor <;> decide

/-- C2 (amended): the duration formatter produces `format(0) = ""`,
`format(100) = "1m40s"`, `format(3661) = "1h1m1s"`, `format(59) = "59s"`,
and `format(3600) = "1h0m0s"` (not `"1h0m"` as the spec's vector claims). -/
theorem C2_vectors_amended :
    secs_to_readable 0 = "" ∧ secs_to_readable 100 = "1m40s" ∧
    secs_to_readable 3661 = "1h1m1s" ∧ secs_to_readable 59 = "59s" ∧
    secs_to_readable 3600 = "1h0m0s" := by
  refine ⟨?_, ?_, ?_, ?_, ?_⟩ <;> decide

/-- C3: with a most recent command of elapsed time `end_t - start_t`
(well-formed history, probe returning without raising), `long_cmd_duration`
yields no output when elapsed ≤ threshold, and when elapsed > threshold it
returns the formatted duration and invokes notification dispatch exactly
when `TRIGGER_NOTIFICATION` is enabled. -/
theorem C3_threshold_decision (w : World) (start_t end_t : Int)
    (hts : w.hist.tss.getLast? = some (start_t, end_t))
    (rtn : Int) (cmd : String) (f : Bool)
    (hr : w.hist.rtns.getLast? = some rtn) (hi : w.hist.inps.getLast? = some cmd)
    (hf : is_app_window_focused w = .ok f) :
    (end_t - start_t ≤ w.cfg.LONG_DURATION → long_cmd_duration w = .ok ⟨none, false, none⟩) ∧
    (end_t - start_t > w.cfg.LONG_DURATION →
      long_cmd_duration w = .ok
        { value := some (secs_to_readable (end_t - start_t))
          dispatched := w.cfg.TRIGGER_NOTIFICATION
          sent :=
            if w.cfg.TRIGGER_NOTIFICATION then
              (if f then none
               else some
                 { application_name := w.ext.promptFormatter w.cfg.NOTIFICATION_APP_NAME
                   title := cmd
                   message := (if rtn ≠ 0 then "Failed" else "Done") ++ " in " ++
                     secs_to_readable (end_t - start_t) })
            else none }) := by
  constructor
  · intro hle
    exact long_cmd_duration_le w start_t end_t hts hle
  · intro hgt
    exact long_cmd_duration_gt w start_t end_t hts hgt rtn cmd f hr hi hf

/-- C3, witness: a 3-second command at threshold 5 produces no output; a
12-second command produces `"12s"` and dispatches one notification. -/
theorem C3_threshold_decision_witness :
    long_cmd_duration c3FastWorld = .ok ⟨none, false, none⟩ ∧
    long_cmd_duration c3SlowWorld =
      .ok ⟨some "12s", true, some ⟨"xonsh", "sleep 12", "Done in 12s"⟩⟩ := by
  constructor
  · exact (C3_threshold_decision c3FastWorld 0 3 rfl 0 "ls" false rfl rfl rfl).1 (by decide)
  · have h := (C3_threshold_decision c3SlowWorld 0 12 rfl 0 "sleep 12" false rfl rfl rfl).2
      (by decide)
    rw [h]
    rfl

/-- C4, counterexample: the claim says the terminal-program map is the user
map merged with the built-in defaults.  With a user map `{"foo": "Bar"}`
the resulting mapping contains no entry for `iterm.app` at all (the user
map replaces the defaults), so `_darwin_get_app_name` falls back to the
input instead of `"iTerm2"`. -/
theorem C4_counterexample :
    pyDictGet (_term_program_mapping c4UserEnv) "iterm.app" = none ∧
    _darwin_get_app_name c4UserEnv "iTerm.app" = "iTerm.app" := by
  constructor <;> decide

/-- C4 (amended): the terminal-program mapping is the user-provided
`XONTRIB_CD_TERM_PROGRAM_MAP` when set, otherwise the built-in defaults
(iTerm2, Terminal, Code, PyCharm, Kate); the user map replaces the defaults
entirely rather than being merged with them; in both cases keys are
lowercased and `_darwin_get_app_name` looks its argument up lowercased. -/
theorem C4_map_amended (env : Env) :
    (env.termProgramMap = none →
      _term_program_mapping env =
        [("iterm.app", "iTerm2"), ("apple_terminal", "Terminal"), ("vscode", "Code"),
         ("pycharm", "PyCharm"), ("kate", "Kate")]) ∧
    (∀ m, env.termProgramMap = some m →
      _term_program_mapping env = m.map (fun kv => (pyStrLower kv.1, kv.2))) ∧
    (∀ t, _darwin_get_app_name env t =
      (pyDictGet (_term_program_mapping env) (pyStrLower t)).getD t) := by
  refine ⟨?_, ?_, ?_⟩
  · intro h
    unfold _term_program_mapping
    rw [h]
    decide
  · intro m h
    unfold _term_program_mapping
    rw [h]
    rfl
  · intro t
    rfl

/-- C4, witness: with no user map the defaults (lowercased keys) are used
and `VSCode` resolves to `Code`; with the user map `{"foo": "Bar"}` the
mapping is exactly that map, lowercased. -/
theorem C4_map_amended_witness :
    _term_program_mapping emptyEnv =
      [("iterm.app", "iTerm2"), ("apple_terminal", "Terminal"), ("vscode", "Code"),
       ("pycharm", "PyCharm"), ("kate", "Kate")] ∧
    _term_program_mapping c4UserEnv = [("foo", "Bar")] ∧
    _darwin_get_app_name emptyEnv "VSCode" = "Code" := by
  refine ⟨(C4_map_amended emptyEnv).1 rfl, ?_, ?_⟩
  · rw [(C4_map_amended c4UserEnv).2.1 [("foo", "Bar")] rfl]
    decide
  · rw [(C4_map_amended emptyEnv).2.2 "VSCode"]
    decide

/-- C5: `notify_user` re-checks window focus before sending and returns
without a notification when focused; when not focused it sends exactly one
notification whose title is the literal command text and whose message is
`"Failed in <duration>"` when the last exit code is non-zero and
`"Done in <duration>"` otherwise. -/
theorem C5_notify_semantics (w : World) (hist : History) (readable : String)
    (rtn : Int) (cmd : String) (f : Bool)
    (hr : hist.rtns.getLast? = some rtn) (hi : hist.inps.getLast? = some cmd)
    (hf : is_app_window_focused w = .ok f) :
    (f = true → notify_user w hist readable = .ok none) ∧
    (f = false → notify_user w hist readable = .ok (some
      { application_name := w.ext.promptFormatter w.cfg.NOTIFICATION_APP_NAME
        title := cmd
        message := (if rtn ≠ 0 then "Failed" else "Done") ++ " in " ++ readable })) := by
  have h := notify_user_spec w hist readable rtn cmd f hr hi hf
  constructor <;> intro hf2 <;> rw [h, hf2] <;> simp

/-- C5, witness: the focused Linux world suppresses the notification; the
unfocused worlds send `"Done in 12s"` after exit code 0 and
`"Failed in 12s"` after exit code 1, each titled with the command text. -/
theorem C5_notify_semantics_witness :
    notify_user c5FocusedWorld c5Hist "12s" = .ok none ∧
    notify_user c5UnfocusedWorld c5Hist "12s" =
      .ok (some ⟨"xonsh", "sleep 12", "Done in 12s"⟩) ∧
    notify_user c5FailWorld c5FailHist "12s" =
      .ok (some ⟨"xonsh", "sleep 12", "Failed in 12s"⟩) := by
  refine ⟨?_, ?_, ?_⟩
  · exact (C5_notify_semantics c5FocusedWorld c5Hist "12s" 0 "sleep 12" true rfl rfl rfl).1 rfl
  · rw [(C5_notify_semantics c5UnfocusedWorld c5Hist "12s" 0 "sleep 12" false rfl rfl rfl).2 rfl]
    rfl
  · rw [(C5_notify_semantics c5FailWorld c5FailHist "12s" 1 "sleep 12" false rfl rfl rfl).2 rfl]
    rfl

/-- C6: for every non-negative integer `s` (on which Python's `round` is the
identity), `secs_to_readable` renders exactly the spec's omission rule
applied to the hour/minute/second decomposition of `s`: hours appear only
when non-zero, minutes appear iff hours or minutes are non-zero, and
seconds appear iff hours, minutes, or seconds are non-zero. -/
theorem C6_unit_omission (s : Nat) :
    secs_to_readable ↑s = specUnitsRender ↑(s / 3600) ↑(s % 3600 / 60) ↑(s % 60) :=
  secs_to_readable_nat s

/-- C7: with no timestamp entries in the history, `long_cmd_duration`
returns the absent value without raising and without invoking dispatch. -/
theorem C7_no_history (w : World) (h : w.hist.tss = []) :
    long_cmd_duration w = .ok ⟨none, false, none⟩ := by
  unfold long_cmd_duration
  rw [h]
  rfl

/-- C7, witness: the empty-history world yields the absent outcome. -/
theorem C7_no_history_witness : long_cmd_duration c7World = .ok ⟨none, false, none⟩ :=
  C7_no_history c7World rfl

/-- C8: on an OS that is neither Linux nor Darwin the focus probe returns
false whatever the oracles would answer (no probing), so whenever the
elapsed time exceeds the threshold and notifications are enabled (and the
history is well-formed), dispatch proceeds and one notification is sent. -/
theorem C8_other_os_dispatch (w : World) (hos : w.os = OSKind.other)
    (start_t end_t : Int) (hts : w.hist.tss.getLast? = some (start_t, end_t))
    (hgt : end_t - start_t > w.cfg.LONG_DURATION) (htr : w.cfg.TRIGGER_NOTIFICATION = true)
    (rtn : Int) (cmd : String)
    (hr : w.hist.rtns.getLast? = some rtn) (hi : w.hist.inps.getLast? = some cmd) :
    is_app_window_focused w = .ok false ∧
    long_cmd_duration w = .ok
      { value := some (secs_to_readable (end_t - start_t))
        dispatched := true
        sent := some
          { application_name := w.ext.promptFormatter w.cfg.NOTIFICATION_APP_NAME
            title := cmd
            message := (if rtn ≠ 0 then "Failed" else "Done") ++ " in " ++
              secs_to_readable (end_t - start_t) } } := by
  have hfoc := is_app_window_focused_other w hos
  refine ⟨hfoc, ?_⟩
  have h := long_cmd_duration_gt w start_t end_t hts hgt rtn cmd false hr hi hfoc
  rw [h, htr]
  simp

/-- C8, witness: in a concrete unsupported-OS world the probe reports
not-focused and the 12-second command sends one notification. -/
theorem C8_other_os_dispatch_witness :
    is_app_window_focused c8World = .ok false ∧
    long_cmd_duration c8World =
      .ok ⟨some "12s", true, some ⟨"xonsh", "sleep 12", "Done in 12s"⟩⟩ := by
  have h := C8_other_os_dispatch c8World rfl 0 12 rfl (by decide) rfl 0 "sleep 12" rfl rfl
  refine ⟨h.1, ?_⟩
  rw [h.2]
  rfl

/-- C9: round-trip of the formatter on every non-negative integer `s`: the
three fields rendered by `secs_to_readable` decompose `s` as
`hours * 3600 + minutes * 60 + seconds = s` with `minutes < 60` and
`seconds < 60`. -/
theorem C9_roundtrip (s : Nat) :
    (s / 3600) * 3600 + (s % 3600 / 60) * 60 + s % 60 = s ∧
    s % 3600 / 60 < 60 ∧ s % 60 < 60 ∧
    secs_to_readable ↑s = specUnitsRender ↑(s / 3600) ↑(s % 3600 / 60) ↑(s % 60) := by
  refine ⟨?_, ?_, Nat.mod_lt _ (by norm_num), secs_to_readable_nat s⟩
  · have hd : (60:ℕ) ∣ 3600 := by norm_num
    have e1 := Nat.div_add_mod s 3600
    have e2 := Nat.div_add_mod (s % 3600) 60
    rw [Nat.mod_mod_of_dvd s hd] at e2
    omega
  · have h : s % 3600 < 3600 := Nat.mod_lt _ (by norm_num)
    omega

/-- C10: `notify_user` indexes `hist.rtns[-1]` and `hist.inps[-1]` before
the focus re-check, so when the elapsed time exceeds the threshold and
notifications are enabled but the return-code or input list is empty (while
the timestamp list is not), an unhandled `IndexError` propagates out of
`long_cmd_duration` — for every world, independent of what the focus
oracles would answer. -/
theorem C10_index_error (w : World) (start_t end_t : Int)
    (hts : w.hist.tss.getLast? = some (start_t, end_t))
    (hgt : end_t - start_t > w.cfg.LONG_DURATION)
    (htr : w.cfg.TRIGGER_NOTIFICATION = true)
    (hempty : w.hist.rtns = [] ∨ w.hist.inps = []) :
    long_cmd_duration w = .error PyErr.indexError := by
  have hnu : notify_user w w.hist (secs_to_readable (end_t - start_t)) =
      .error PyErr.indexError := by
    unfold notify_user pyLast
    rcases hempty with h | h
    · rw [h]
      simp
    · rw [h]
      cases hR : w.hist.rtns.getLast? <;> simp
  unfold long_cmd_duration
  rw [hts]
  simp only
  rw [if_pos hgt, if_pos (by rw [htr]), hnu]

/-- C10, witness: a world with a 12-second command whose return-code list is
empty makes `long_cmd_duration` raise `IndexError`. -/
theorem C10_index_error_witness : long_cmd_duration c10World = .error PyErr.indexError :=
  C10_index_error c10World 0 12 rfl (by decide) rfl (Or.inl rfl)
